import Mathlib

/-!
Shallow embedding of `src/bayesian_regression.py` (class `BayesianRegression`).

Modelling conventions:
* numpy arrays become functions out of `Fin`: an `n x m` array is a
  `Matrix (Fin n) (Fin m) ℚ`, a length-`n` vector is `Fin n → ℚ`.  Machine
  floats are modelled by exact rationals; `np.log` is an opaque numerical
  primitive and is passed in as an arbitrary function `logf : ℚ → ℚ` (no claim
  here depends on the value of a logarithm, only on the structure of the
  expressions it appears in).
* `np.linalg.svd` is not exactly computable over ℚ, so the decomposition
  `(u, d, v)` produced at construction (line 38 of the source) is supplied to
  the constructor as data; everything downstream of it is embedded from the
  source.
* The constructor stores `self.alpha = 0` and `self.beta = 0` as Python ints
  (lines 41-42); `_evidence_approx` overwrites them with floats (lines
  155-156).  The flag `alphaBetaAreInt` records whether they still hold the
  constructor's int `0`: Python raises `ZeroDivisionError` for `1/0` on ints
  (predict, line 220) but yields `inf` for float division by zero.  Array
  divisions never raise in numpy; in ℚ a division by zero yields the junk
  value `0`, and no theorem below reads such a value.
* The constructor sets `self.w_mu = 0` and (with a typo) `self.w_precison = 0`
  as scalar placeholders (lines 45-46); `fit` (line 188) assigns
  `self.w_mu, self.w_precision` (correctly spelt, hence a *different*
  attribute from `w_precison`).  The placeholders are modelled as `none`.
* `self.bias_term` is assigned in `__init__` only when the constructor
  argument `bias_term is True` (lines 34-35); otherwise the attribute does not
  exist and reading it raises `AttributeError`.  It is modelled as an
  `Option ℚ` that is `none` when the attribute is missing.
* Line 118 of the source reads the bare name `Y`, i.e. the *module-level
  global* `Y` (defined only when the file runs as a script), not `self.Y`.
  The global is modelled as a parameter `gY : Option (Fin n → ℚ)`; `none`
  means the name is undefined and the read raises `NameError`.
* Methods that mutate instance attributes are embedded as functions returning
  the updated instance; Python exceptions become `Except Err`.  When an
  exception escapes a method, the instance reflects exactly the attribute
  writes that happened before the raise.
-/

namespace SkBayes

open Matrix

attribute [local semireducible] Rat.mul Rat.inv Rat.add Rat.sub

/-- Python exception kinds arising in the modelled methods.  `notFitted` is
modelled from the spec: spec section 7 requires a dedicated not-fitted error
for `predict` before `fit`; the source never raises it, and the constructor is
included only so theorems can compare the error actually raised against it. -/
inductive Err
  | nameError
  | valueError
  | attributeError
  | zeroDivisionError
  | notFitted
  deriving DecidableEq

/-- Instance state of a `BayesianRegression` object (source lines 26-46).
`n` = number of observations, `m` = number of features, `k` = number of
singular values kept by the economy SVD (`min n m` for a real SVD). -/
structure BayesianRegression (n m k : ℕ) where
  mu_X : Fin m → ℚ
  X : Matrix (Fin n) (Fin m) ℚ
  mu_Y : ℚ
  Y : Fin n → ℚ
  thresh : ℚ
  bias_term : Option ℚ
  u : Matrix (Fin n) (Fin k) ℚ
  d : Fin k → ℚ
  v : Matrix (Fin k) (Fin m) ℚ
  alpha : ℚ
  beta : ℚ
  alphaBetaAreInt : Bool
  w_mu : Option (Fin m → ℚ)
  w_precison : Option (Matrix (Fin m) (Fin m) ℚ)
  w_precision : Option (Matrix (Fin m) (Fin m) ℚ)
  diag : Option (Fin k → ℚ)
  deriving DecidableEq

instance {ε α : Type} [DecidableEq ε] [DecidableEq α] : DecidableEq (Except ε α)
  | Except.error a, Except.error b =>
    if h : a = b then isTrue (by rw [h]) else isFalse (fun hc => h (Except.error.inj hc))
  | Except.error _, Except.ok _ => isFalse (fun hc => Except.noConfusion hc)
  | Except.ok _, Except.error _ => isFalse (fun hc => Except.noConfusion hc)
  | Except.ok a, Except.ok b =>
    if h : a = b then isTrue (by rw [h]) else isFalse (fun hc => h (Except.ok.inj hc))

variable {n m k q : ℕ}

/-- Column mean of a design matrix: `np.mean(X, axis=0)` (source line 29). -/
def colMean (X : Matrix (Fin n) (Fin m) ℚ) (j : Fin m) : ℚ :=
  (∑ i, X i j) / n

/-- The constructor `BayesianRegression.__init__` (source lines 26-46).
`X - np.outer(mu_X, np.ones(n)).T` subtracts the column mean from every row;
`Y - np.mean(Y)` centers the response.  The economy SVD `(u, d, v)` of the
centered `X` is supplied as data (see the module docstring). -/
def init (X : Matrix (Fin n) (Fin m) ℚ) (Y : Fin n → ℚ) (bias_term : Bool) (thresh : ℚ)
    (u : Matrix (Fin n) (Fin k) ℚ) (d : Fin k → ℚ) (v : Matrix (Fin k) (Fin m) ℚ) :
    BayesianRegression n m k :=
  { mu_X := colMean X
    X := Matrix.of fun i j => X i j - colMean X j
    mu_Y := (∑ i, Y i) / n
    Y := fun i => Y i - (∑ i, Y i) / n
    thresh := thresh
    bias_term := if bias_term then some ((∑ i, Y i) / n) else none
    u := u
    d := d
    v := v
    alpha := 0
    beta := 0
    alphaBetaAreInt := true
    w_mu := none
    w_precison := none
    w_precision := none
    diag := none }

/-- The method `_weights_posterior_params` (source lines 49-82).  Note that
`beta*np.dot(self.X.T, self.X) + alpha` adds the scalar `alpha` to *every*
entry of the matrix (numpy scalar broadcast), not only to the diagonal.
The method also assigns `self.diag` (line 78), so it returns the updated
instance alongside `[w_mu, precision]`. -/
def weights_posterior_params (M : BayesianRegression n m k) (alpha beta : ℚ) :
    BayesianRegression n m k × (Fin m → ℚ) × Matrix (Fin m) (Fin m) ℚ :=
  let precision : Matrix (Fin m) (Fin m) ℚ :=
    Matrix.of fun i j => beta * ((M.X)ᵀ * M.X) i j + alpha
  let dg : Fin k → ℚ := fun i => M.d i / (M.d i ^ 2 + alpha / beta)
  let p1 := (M.v)ᵀ * Matrix.diagonal dg
  let p2 := (M.u)ᵀ.mulVec M.Y
  ({ M with diag := some dg }, p1.mulVec p2, precision)

/-- Observable work done inside one iteration of `_evidence_approx`
(source lines 114-147), in program order. -/
inductive Ev (mm : ℕ)
  | posteriorMean (mu : Fin mm → ℚ)
  | residual (sqdErr : ℚ)
  | hyperUpdate (alpha beta : ℚ)
  | logLike (value : ℚ)
  deriving DecidableEq

/-- The per-iteration posterior mean of `_evidence_approx` (source lines
117-119): `np.dot(np.dot(self.v.T, np.diag(self.d/(dsq+alpha/beta))),
np.dot(self.u.T, Y))` where `Y` is the *global* response `Yg`. -/
def muIter (M : BayesianRegression n m k) (Yg : Fin n → ℚ) (dsq : Fin k → ℚ)
    (alpha beta : ℚ) : Fin m → ℚ :=
  ((M.v)ᵀ * Matrix.diagonal fun i => M.d i / (dsq i + alpha / beta)).mulVec
    ((M.u)ᵀ.mulVec Yg)

/-- The per-iteration squared residual norm (source lines 122-123):
`error = self.Y - np.dot(self.X, mu); sqdErr = np.dot(error, error)`.
The residual uses the stored centered `self.Y` (unlike the mean above). -/
def sqdErrIter (M : BayesianRegression n m k) (Yg : Fin n → ℚ) (dsq : Fin k → ℚ)
    (alpha beta : ℚ) : ℚ :=
  dotProduct (fun i => M.Y i - M.X.mulVec (muIter M Yg dsq alpha beta) i)
    (fun i => M.Y i - M.X.mulVec (muIter M Yg dsq alpha beta) i)

/-- One iteration of the loop body of `_evidence_approx` (source lines
114-147).  Reading the undefined global `Y` raises `NameError` (line 118);
an unrecognized method string raises `ValueError` (line 141) only *after*
the posterior mean and residual of the iteration have been computed.  In the
EM branch the `alpha` rebound on line 137 is already the *new* value when
line 138 computes `beta`.  On success it returns
`(new alpha, new beta, log_like)`. -/
def iterBody (M : BayesianRegression n m k) (gY : Option (Fin n → ℚ)) (logf : ℚ → ℚ)
    (method : String) (dsq : Fin k → ℚ) (alpha beta : ℚ) :
    List (Ev m) × Except Err (ℚ × ℚ × ℚ) :=
  match gY with
  | none => ([], Except.error Err.nameError)
  | some Yg =>
    let mu := muIter M Yg dsq alpha beta
    let sqdErr := sqdErrIter M Yg dsq alpha beta
    if method = "fixed-point" then
      let gamma := ∑ i, beta * dsq i / (beta * dsq i + alpha)
      let alpha2 := gamma / dotProduct mu mu
      let beta2 := ((n : ℚ) - gamma) / sqdErr
      let normaliser := (m : ℚ) / 2 * logf alpha2 + (n : ℚ) / 2 * logf beta2
        - 1 / 2 * ∑ i, logf (beta2 * dsq i + alpha2)
      let ll := normaliser - alpha2 / 2 * dotProduct mu mu - beta2 / 2 * sqdErr
      ([Ev.posteriorMean mu, Ev.residual sqdErr, Ev.hyperUpdate alpha2 beta2,
        Ev.logLike ll], Except.ok (alpha2, beta2, ll))
    else if method = "EM" then
      let alpha2 := (m : ℚ) / (dotProduct mu mu + ∑ i, 1 / (beta * dsq i + alpha))
      let beta2 := (n : ℚ) / (sqdErr + ∑ i, dsq i / (beta * dsq i + alpha2))
      let normaliser := (m : ℚ) / 2 * logf alpha2 + (n : ℚ) / 2 * logf beta2
        - 1 / 2 * ∑ i, logf (beta2 * dsq i + alpha2)
      let ll := normaliser - alpha2 / 2 * dotProduct mu mu - beta2 / 2 * sqdErr
      ([Ev.posteriorMean mu, Ev.residual sqdErr, Ev.hyperUpdate alpha2 beta2,
        Ev.logLike ll], Except.ok (alpha2, beta2, ll))
    else
      ([Ev.posteriorMean mu, Ev.residual sqdErr], Except.error Err.valueError)

/-- The stopping test of `_evidence_approx` (source lines 150-151) applied to
the accumulated `log_likes` list: the Python loop index satisfies `i >= 1`
exactly when the list just appended to has at least two entries, and then
`log_likes[-1] - log_likes[-2] < thresh` triggers the break. -/
def stopCond (thresh : ℚ) (L : List ℚ) : Prop :=
  2 ≤ L.length ∧ L.getD (L.length - 1) 0 - L.getD (L.length - 2) 0 < thresh

instance (thresh : ℚ) (L : List ℚ) : Decidable (stopCond thresh L) :=
  inferInstanceAs (Decidable (_ ∧ _))

/-- The `for i in range(max_iter)` loop of `_evidence_approx` (source lines
114-152), with the iteration body abstracted.  Returns the trace of events and
either the escaping exception or `(alpha, beta, log_likes)` as they stand when
the loop finishes (by break or by exhausting `range(max_iter)`). -/
def loopAux (thresh : ℚ) (body : ℚ → ℚ → List (Ev m) × Except Err (ℚ × ℚ × ℚ)) :
    ℕ → ℚ → ℚ → List ℚ → List (Ev m) × Except Err (ℚ × ℚ × List ℚ)
  | 0, a, b, lls => ([], Except.ok (a, b, lls))
  | fuel + 1, a, b, lls =>
    match body a b with
    | (evs, Except.error e) => (evs, Except.error e)
    | (evs, Except.ok (a2, b2, l)) =>
      let lls2 := lls ++ [l]
      if stopCond thresh lls2 then (evs, Except.ok (a2, b2, lls2))
      else
        let r := loopAux thresh body fuel a2 b2 lls2
        (evs ++ r.1, r.2)

/-- The method `_evidence_approx` (source lines 85-156).  `alpha0, beta0` are
the two draws of `np.random.random(2)` (line 107); `gY` is the module-level
global `Y` read on line 118; `logf` stands for `np.log`.  On success the
final `alpha, beta` are written to the instance (lines 155-156, turning them
into floats); on an exception nothing has been written.  The `log_likes`
history is returned alongside for analysis of the stopping rule. -/
def evidence_approx (M : BayesianRegression n m k) (gY : Option (Fin n → ℚ))
    (logf : ℚ → ℚ) (alpha0 beta0 : ℚ) (max_iter : ℕ) (method : String) :
    List (Ev m) × Except Err (BayesianRegression n m k × List ℚ) :=
  let dsq : Fin k → ℚ := fun i => M.d i ^ 2
  let r := loopAux M.thresh (fun a b => iterBody M gY logf method dsq a b)
    max_iter alpha0 beta0 []
  (r.1,
    match r.2 with
    | Except.error e => Except.error e
    | Except.ok (a, b, lls) =>
      Except.ok ({ M with alpha := a, beta := b, alphaBetaAreInt := false }, lls))

/-- The dictionary returned by `fit` (source lines 176-194): the `bias_term`
key is present exactly when `some`. -/
structure FitResult (mm : ℕ) where
  bias_term : Option ℚ
  weights : Fin mm → ℚ
  precision : Matrix (Fin mm) (Fin mm) ℚ
  deriving DecidableEq

/-- The method `fit` (source lines 159-194).  It runs `_evidence_approx`, then
`_weights_posterior_params` at the stored `alpha, beta`, assigns
`self.w_mu, self.w_precision` (line 188), and finally reads `self.bias_term`
(line 190) - which raises `AttributeError` when the attribute was never
assigned (constructor called with `bias_term` not `True`).  When the
attribute exists, the reported value is `self.mu_Y` (line 191).  The returned
instance reflects all attribute writes performed before any raise. -/
def fit (M : BayesianRegression n m k) (gY : Option (Fin n → ℚ)) (logf : ℚ → ℚ)
    (alpha0 beta0 : ℚ) (evidence_approx_method : String) (max_iter : ℕ) :
    BayesianRegression n m k × Except Err (FitResult m) :=
  match (evidence_approx M gY logf alpha0 beta0 max_iter evidence_approx_method).2 with
  | Except.error e => (M, Except.error e)
  | Except.ok (M1, _) =>
    let wp := weights_posterior_params M1 M1.alpha M1.beta
    let M3 := { wp.1 with w_mu := some wp.2.1, w_precision := some wp.2.2 }
    match M3.bias_term with
    | none => (M3, Except.error Err.attributeError)
    | some _ => (M3, Except.ok ⟨some M3.mu_Y, wp.2.1, wp.2.2⟩)

/-- `np.dot(x, w)` where `w` is either the constructor's scalar placeholder
`0` (giving a zero vector) or a weight vector (source line 217). -/
def mulVecO (A : Matrix (Fin q) (Fin m) ℚ) : Option (Fin m → ℚ) → Fin q → ℚ
  | none => fun _ => 0
  | some w => A.mulVec w

/-- The method `predict` (source lines 197-221).  The array divisions on line
218 cannot raise in numpy; the scalar `1/self.beta` on line 220 raises
`ZeroDivisionError` exactly when `self.beta` still holds the constructor's
Python int `0`.  No instance attribute is assigned anywhere in the method, so
the returned instance is the input instance. -/
def predict (M : BayesianRegression n m k) (x : Matrix (Fin q) (Fin m) ℚ) :
    Except Err (BayesianRegression n m k × (Fin q → ℚ) × Matrix (Fin q) (Fin q) ℚ) :=
  let xc : Matrix (Fin q) (Fin m) ℚ := Matrix.of fun i j => x i j - M.mu_X j
  let mu_pred : Fin q → ℚ := fun i => mulVecO xc M.w_mu i + M.mu_Y
  let dv : Fin k → ℚ := fun i => 1 / (M.beta * M.d i ^ 2 + M.alpha)
  let D := (M.v)ᵀ * Matrix.diagonal dv * M.v
  if M.alphaBetaAreInt = true ∧ M.beta = 0 then Except.error Err.zeroDivisionError
  else
    Except.ok (M, mu_pred, Matrix.of fun i j => 1 / M.beta + (xc * D * xcᵀ) i j)

/-!
Concrete instances used by counterexamples and witnesses.  The centered
column of `X4` is `[1, -1, 7, -7]`, whose norm is exactly 10, so the centered
design matrix has an exactly rational economy SVD
`u4 * diag d4 * v4 = [[1], [-1], [7], [-7]]`; likewise `X8`'s two centered
columns are `[1, -1, 7, -7]` and `[7/2, -7/2, -1/2, 1/2]`, an orthogonal pair
with norms 10 and 5, giving the rational SVD `u8 * diag d8 * v8`.
-/

/-- Raw 4 x 1 design matrix of the concrete one-feature scenario. -/
def X4 : Matrix (Fin 4) (Fin 1) ℚ := !![6; 4; 12; -2]

/-- Raw response for the one-feature scenario (mean 1, centers to
`[2, 0, 0, -2]`). -/
def Y4 : Fin 4 → ℚ := ![3, 1, 1, -1]

/-- Left singular vectors of the centered `X4`. -/
def u4 : Matrix (Fin 4) (Fin 1) ℚ := !![1/10; -1/10; 7/10; -7/10]

/-- Singular values of the centered `X4`. -/
def d4 : Fin 1 → ℚ := ![10]

/-- Right factor of the SVD of the centered `X4`. -/
def v4 : Matrix (Fin 1) (Fin 1) ℚ := !![1]

/-- Opaque stand-in for `np.log` in concrete evaluations; no claim depends on
the value of a logarithm. -/
def logZero : ℚ → ℚ := fun _ => 0

/-- A freshly constructed instance on the one-feature data, with
`bias_term = True` as in the source's demo block (line 230). -/
def M4 : BayesianRegression 4 1 1 := init X4 Y4 true (1 / 100000) u4 d4 v4

/-- The same data constructed with `bias_term = False` (the constructor's
default), so the `bias_term` attribute is never assigned. -/
def M4F : BayesianRegression 4 1 1 := init X4 Y4 false (1 / 100000) u4 d4 v4

/-- The same data with a huge convergence threshold, so the loop is certain to
stop at its second iteration. -/
def M7 : BayesianRegression 4 1 1 := init X4 Y4 true 1000000 u4 d4 v4

/-- The module-level global `Y` as it stands in the demo scenario: the raw
(uncentered) response vector of the data the instance was built from. -/
def g4 : Fin 4 → ℚ := Y4

/-- The `dsq = self.d**2` precomputed before the loop (source line 111). -/
def dsq4 : Fin 1 → ℚ := fun i => d4 i ^ 2

/-- Raw 4 x 2 design matrix of the two-feature scenario. -/
def X8 : Matrix (Fin 4) (Fin 2) ℚ := !![6, 4; 4, -3; 12, 0; -2, 1]

/-- Raw response for the two-feature scenario. -/
def Y8 : Fin 4 → ℚ := ![1, 2, 3, 4]

/-- Left singular vectors of the centered `X8`. -/
def u8 : Matrix (Fin 4) (Fin 2) ℚ := !![1/10, 7/10; -1/10, -7/10; 7/10, -1/10; -7/10, 1/10]

/-- Singular values of the centered `X8`. -/
def d8 : Fin 2 → ℚ := ![10, 5]

/-- Right factor of the SVD of the centered `X8`. -/
def v8 : Matrix (Fin 2) (Fin 2) ℚ := !![1, 0; 0, 1]

/-- A freshly constructed two-feature instance. -/
def M8 : BayesianRegression 4 2 2 := init X8 Y8 true (1 / 100000) u8 d8 v8

/-- A plausible post-`fit` instance state on the one-feature data: `alpha` and
`beta` hold floats, and `w_mu`, `w_precision` have been assigned
(source lines 155-156 and 188). -/
def M4fit : BayesianRegression 4 1 1 :=
  { M4 with
    alpha := 1
    beta := 2
    alphaBetaAreInt := false
    w_mu := some ![3]
    w_precision := some !![7] }

/-- Follows the spec's words (section 4.4, steps 1-2): center the query
against the training column means, then `mu_pred = x·w_mu + mu_Y`, re-adding
the training response mean. -/
def spec_mu_pred (M : BayesianRegression n m k) (w : Fin m → ℚ)
    (x : Matrix (Fin q) (Fin m) ℚ) : Fin q → ℚ :=
  fun i => dotProduct (fun j => x i j - M.mu_X j) w + M.mu_Y

/-- Follows the spec's words (section 4.4, step 3): per singular value
`d_i = 1/(beta·d_i² + alpha)`, then `D = Vᵀ·diag(d)·V`, an m x m matrix. -/
def spec_D (M : BayesianRegression n m k) : Matrix (Fin m) (Fin m) ℚ :=
  (M.v)ᵀ * Matrix.diagonal (fun i => 1 / (M.beta * M.d i ^ 2 + M.alpha)) * M.v

/-- Follows the spec's words (section 4.4, step 4):
`var_pred = 1/beta + x·D·xᵀ` over the centered query batch, a q x q matrix. -/
def spec_var_pred (M : BayesianRegression n m k) (x : Matrix (Fin q) (Fin m) ℚ) :
    Matrix (Fin q) (Fin q) ℚ :=
  Matrix.of fun i j => 1 / M.beta +
    ((Matrix.of fun a b => x a b - M.mu_X b) * spec_D M *
      (Matrix.of fun a b => x a b - M.mu_X b)ᵀ) i j

/-- The instance-and-history pair produced by the concrete
evidence-approximation run used to witness the stopping rule: threshold
`1000000` forces a stop at the second iteration, well before `max_iter = 5`. -/
def run7 : BayesianRegression 4 1 1 × List ℚ :=
  ((evidence_approx M7 (some g4) logZero (1/2) (1/2) 5 "EM").2.toOption).getD (M7, [])

/-!
Theorems settling the claims.
-/

/-- Claim C1 (code bug).  The claim says the per-iteration posterior mean is
computed from the model's stored mean-centered response `self.Y`.  In fact
source line 118 reads the bare module-level global `Y`: (a) when no such
global exists (the class used as a library), the very first iteration raises
`NameError`, so the loop never computes any posterior mean at all; (b) for any
value `g` of the global, the first iteration's posterior-mean event is the
SVD formula applied to `g`, whatever `g` is; and (c) changing the stored
centered response `self.Y` does not change the posterior-mean event at all. -/
theorem C1_loop_reads_global_Y :
    (evidence_approx M4 none logZero (1/2) (1/2) 100 "EM").2 = Except.error Err.nameError ∧
    (∀ g : Fin 4 → ℚ,
      (iterBody M4 (some g) logZero "EM" dsq4 (1/2) (1/2)).1.head? =
        some (Ev.posteriorMean (muIter M4 g dsq4 (1/2) (1/2)))) ∧
    (iterBody { M4 with Y := fun _ => 0 } (some g4) logZero "EM" dsq4 (1/2) (1/2)).1.head? =
      (iterBody M4 (some g4) logZero "EM" dsq4 (1/2) (1/2)).1.head? :=
  ⟨rfl, fun _ => rfl, rfl⟩

/-- Claim C2 (code bug).  The claim says `fit` on a model constructed with
`bias_term = False` (the default) completes and returns a dictionary without
the `bias_term` key.  In fact `__init__` assigns `self.bias_term` only when
the argument `is True` (source lines 34-35), so `fit` reaches line 190 and
raises `AttributeError`.  The centering part of the claim does hold: the
constructor centers `X` and `Y` identically for both flag values. -/
theorem C2_fit_default_bias_raises :
    (fit M4F (some g4) logZero (1/2) (1/2) "EM" 1).2 = Except.error Err.attributeError ∧
    M4F.bias_term = none ∧
    (∀ (nn mm kk : ℕ) (X : Matrix (Fin nn) (Fin mm) ℚ) (Y : Fin nn → ℚ) (t : ℚ)
      (u : Matrix (Fin nn) (Fin kk) ℚ) (d : Fin kk → ℚ) (v : Matrix (Fin kk) (Fin mm) ℚ),
      (init X Y false t u d v).X = (init X Y true t u d v).X ∧
      (init X Y false t u d v).Y = (init X Y true t u d v).Y ∧
      (init X Y false t u d v).mu_X = (init X Y true t u d v).mu_X ∧
      (init X Y false t u d v).mu_Y = (init X Y true t u d v).mu_Y) :=
  ⟨rfl, rfl, fun _ _ _ _ _ _ _ _ _ => ⟨rfl, rfl, rfl, rfl⟩⟩

/-- Claim C3 (amended).  In the EM branch the alpha update does use the
previous iteration's `alpha, beta`, but the sum inside the beta update uses
the `alpha` *just rebound on source line 137*, i.e. the new alpha, together
with the previous beta. -/
theorem C3_amended_em_beta_uses_new_alpha (nn mm kk : ℕ)
    (M : BayesianRegression nn mm kk) (Yg : Fin nn → ℚ) (logf : ℚ → ℚ)
    (dsq : Fin kk → ℚ) (a b : ℚ) :
    ∃ ll, (iterBody M (some Yg) logf "EM" dsq a b).2 =
      Except.ok
        ((mm : ℚ) / (dotProduct (muIter M Yg dsq a b) (muIter M Yg dsq a b) +
            ∑ i, 1 / (b * dsq i + a)),
          (nn : ℚ) / (sqdErrIter M Yg dsq a b +
            ∑ i, dsq i / (b * dsq i +
              (mm : ℚ) / (dotProduct (muIter M Yg dsq a b) (muIter M Yg dsq a b) +
                ∑ i, 1 / (b * dsq i + a)))),
          ll) :=
  ⟨_, rfl⟩

/-- Claim C3 (counterexample).  One concrete EM iteration at
`alpha = beta = 1`: the code's new beta differs from the claim's formula
`n / (sqdErr + Σ dsq/(beta_old·dsq + alpha_old))` evaluated at the same
iteration data (the code divides by `beta_old·dsq + alpha_new` instead). -/
theorem C3_counterexample :
    (iterBody M4 (some g4) logZero "EM" dsq4 1 1).2 =
      Except.ok (10201/357, 468236101/727874399, -78266411644/37121594349) ∧
    sqdErrIter M4 g4 dsq4 1 1 = 55496/10201 ∧
    (4 : ℚ) / (sqdErrIter M4 g4 dsq4 1 1 + ∑ i, dsq4 i / (1 * dsq4 i + 1)) =
      10201/16399 ∧
    (468236101/727874399 : ℚ) ≠ 10201/16399 := by
  refine ⟨by decide, by decide, by decide, by decide⟩

/-- Claim C4 (code bug).  The claim says the posterior precision is
`beta·XᵀX + alpha·I`, alpha added only on the diagonal, for every feature
dimension.  numpy's `beta*np.dot(X.T, X) + alpha` adds alpha to *every*
entry: on the two-feature instance `M8` (whose centered features are
orthogonal, so `XᵀX` is diagonal) the off-diagonal entry of the returned
precision equals `alpha = 1`, not `0`.  The last conjunct states the general
full-broadcast formula the code actually computes. -/
theorem C4_alpha_added_to_every_entry :
    (weights_posterior_params M8 1 1).2.2 0 1 = 1 ∧
    ((M8.X)ᵀ * M8.X) 0 1 = 0 ∧
    (weights_posterior_params M8 1 1).2.2 0 1 ≠ 1 * ((M8.X)ᵀ * M8.X) 0 1 ∧
    (∀ (nn mm kk : ℕ) (M : BayesianRegression nn mm kk) (alpha beta : ℚ)
      (i j : Fin mm),
      (weights_posterior_params M alpha beta).2.2 i j =
        beta * ((M.X)ᵀ * M.X) i j + alpha) :=
  ⟨by decide, by decide, by decide, fun _ _ _ _ _ _ _ _ => rfl⟩

/-- Claim C5 (counterexample).  With an unrecognized method string
(`"gibbs"`) on a concrete model, `fit`'s evidence stage does raise
`ValueError`, but only *after* the first iteration has computed the posterior
mean and the residual: the event trace preceding the error is nonempty and
begins with the posterior-mean computation, refuting "no posterior-mean
computation ... precedes the error". -/
theorem C5_counterexample :
    (evidence_approx M4 (some g4) logZero (1/2) (1/2) 100 "gibbs").2 =
      Except.error Err.valueError ∧
    (evidence_approx M4 (some g4) logZero (1/2) (1/2) 100 "gibbs").1 =
      [Ev.posteriorMean (muIter M4 g4 dsq4 (1/2) (1/2)),
        Ev.residual (sqdErrIter M4 g4 dsq4 (1/2) (1/2))] :=
  ⟨rfl, rfl⟩

/-- Claim C5 (amended).  For any method string other than `"EM"` and
`"fixed-point"` (and a defined global `Y`), the loop raises `ValueError`
during its *first* iteration: after computing that iteration's posterior mean
and residual, but before any hyperparameter update or log-likelihood
evaluation, and no second iteration occurs.  (When the global `Y` is
undefined, a `NameError` occurs even earlier; see C1.) -/
theorem C5_amended_invalid_method_error_after_first_posterior_mean
    (nn mm kk : ℕ) (M : BayesianRegression nn mm kk) (Yg : Fin nn → ℚ)
    (logf : ℚ → ℚ) (a0 b0 : ℚ) (fuel : ℕ) (method : String)
    (h1 : method ≠ "EM") (h2 : method ≠ "fixed-point") :
    (evidence_approx M (some Yg) logf a0 b0 (fuel + 1) method).2 =
      Except.error Err.valueError ∧
    (evidence_approx M (some Yg) logf a0 b0 (fuel + 1) method).1 =
      [Ev.posteriorMean (muIter M Yg (fun i => M.d i ^ 2) a0 b0),
        Ev.residual (sqdErrIter M Yg (fun i => M.d i ^ 2) a0 b0)] := by
  have hb : iterBody M (some Yg) logf method (fun i => M.d i ^ 2) a0 b0 =
      ([Ev.posteriorMean (muIter M Yg (fun i => M.d i ^ 2) a0 b0),
        Ev.residual (sqdErrIter M Yg (fun i => M.d i ^ 2) a0 b0)],
        Except.error Err.valueError) := by
    simp only [iterBody, if_neg h1, if_neg h2]
  refine ⟨?_, ?_⟩ <;> simp only [evidence_approx, loopAux, hb]

/-- Claim C5 (witness for the amended theorem): the amended statement applied
to the concrete method string `"gibbs"` on the concrete instance `M4`. -/
theorem C5_amended_witness :
    ("gibbs" ≠ "EM") ∧ ("gibbs" ≠ "fixed-point") ∧
    (evidence_approx M4 (some g4) logZero 1 1 (6 + 1) "gibbs").2 =
      Except.error Err.valueError ∧
    (evidence_approx M4 (some g4) logZero 1 1 (6 + 1) "gibbs").1 =
      [Ev.posteriorMean (muIter M4 g4 (fun i => M4.d i ^ 2) 1 1),
        Ev.residual (sqdErrIter M4 g4 (fun i => M4.d i ^ 2) 1 1)] :=
  have hc := C5_amended_invalid_method_error_after_first_posterior_mean
    4 1 1 M4 g4 logZero 1 1 6 "gibbs" (by decide) (by decide)
  ⟨by decide, by decide, hc.1, hc.2⟩

/-- Claim C6 (counterexample).  On a freshly constructed instance, `predict`
raises `ZeroDivisionError` (from `1/self.beta` with the constructor's Python
int `0`, source line 220), which is not a dedicated not-fitted error. -/
theorem C6_counterexample :
    predict M4 !![6] = Except.error Err.zeroDivisionError ∧
    Err.zeroDivisionError ≠ Err.notFitted :=
  ⟨rfl, by decide⟩

/-- Claim C6 (amended).  Calling `predict` on any freshly constructed
instance (any data, any `bias_term`, any threshold, any supplied SVD, any
query) raises an error rather than returning a numeric result - but the error
is `ZeroDivisionError`, not a dedicated not-fitted error. -/
theorem C6_amended_fresh_predict_zero_division (nn mm kk qq : ℕ)
    (X : Matrix (Fin nn) (Fin mm) ℚ) (Y : Fin nn → ℚ) (bias : Bool) (t : ℚ)
    (u : Matrix (Fin nn) (Fin kk) ℚ) (d : Fin kk → ℚ)
    (v : Matrix (Fin kk) (Fin mm) ℚ) (x : Matrix (Fin qq) (Fin mm) ℚ) :
    predict (init X Y bias t u d v) x = Except.error Err.zeroDivisionError :=
  rfl

/-- Claim C9 (confirmed).  `predict` assigns no instance attribute: whenever
it returns, the instance it hands back is the one it was called on, and a
repeated call with the same input is the same computation on the same state,
hence returns the identical result. -/
theorem C9_predict_no_mutation (nn mm kk qq : ℕ) (M : BayesianRegression nn mm kk)
    (x : Matrix (Fin qq) (Fin mm) ℚ) (M2 : BayesianRegression nn mm kk)
    (res : (Fin qq → ℚ) × Matrix (Fin qq) (Fin qq) ℚ)
    (h : predict M x = Except.ok (M2, res)) :
    M2 = M ∧ predict M2 x = predict M x := by
  have hM : M = M2 := by
    simp only [predict] at h
    split at h
    · exact absurd h (by simp)
    · exact congrArg Prod.fst (Except.ok.inj h)
  subst hM
  exact ⟨rfl, rfl⟩

/-- Claim C9 (witness): the no-mutation theorem applied to a concrete fitted
instance and query, with the concrete prediction evaluated. -/
theorem C9_predict_no_mutation_witness :
    predict M4fit !![7] = Except.ok (M4fit, ![7], !![209/402]) ∧
    M4fit = M4fit ∧ predict M4fit !![7] = predict M4fit !![7] :=
  have h : predict M4fit !![7] = Except.ok (M4fit, ![7], !![209/402]) := by decide
  ⟨h, C9_predict_no_mutation 4 1 1 1 M4fit !![7] M4fit (![7], !![209/402]) h⟩

/-- Claim C10 (counterexample).  A failing `fit` that does *not* leave the
instance unchanged: on an instance constructed with the default
`bias_term = False`, `fit` with a valid method raises `AttributeError` at the
result-assembly step (source line 190), *after* lines 155-156 and 188 have
already overwritten `alpha`, `beta`, `w_mu`, `w_precision`. -/
theorem C10_counterexample :
    (fit M4F (some g4) logZero (1/2) (1/2) "EM" 1).2 =
      Except.error Err.attributeError ∧
    M4F.alpha = 0 ∧
    (fit M4F (some g4) logZero (1/2) (1/2) "EM" 1).1.alpha = 10201/458 ∧
    (10201/458 : ℚ) ≠ 0 ∧
    M4F.w_mu = none ∧
    (fit M4F (some g4) logZero (1/2) (1/2) "EM" 1).1.w_mu ≠ none :=
  ⟨rfl, rfl, by decide, by decide, rfl, by decide⟩

/-- Claim C10 (amended).  When `fit` raises from the evidence-approximation
stage - in particular `ValueError` on an invalid method string, or
`NameError` on the undefined global `Y` - the instance state is exactly the
pre-call state: the writes to `alpha`, `beta` (lines 155-156) and to `w_mu`,
`w_precision` (line 188) all happen after the loop completes without error.
Only the later `AttributeError` of line 190 escapes with the state already
overwritten. -/
theorem C10_amended_evidence_stage_failure_preserves_state (nn mm kk : ℕ)
    (M : BayesianRegression nn mm kk) (gY : Option (Fin nn → ℚ)) (logf : ℚ → ℚ)
    (a0 b0 : ℚ) (method : String) (max_iter : ℕ)
    (M2 : BayesianRegression nn mm kk) (e : Err)
    (h : fit M gY logf a0 b0 method max_iter = (M2, Except.error e))
    (he : e ≠ Err.attributeError) : M2 = M := by
  unfold fit at h
  split at h
  · exact (congrArg Prod.fst h).symm
  · dsimp only at h
    split at h
    · exact absurd (Except.error.inj (congrArg Prod.snd h)).symm he
    · simp at h

/-- Claim C10 (witness for the amended theorem): a concrete invalid-method
`fit` call that raises `ValueError` and returns the instance unchanged. -/
theorem C10_amended_witness :
    fit M4F (some g4) logZero (1/2) (1/2) "gibbs" 1 =
      (M4F, Except.error Err.valueError) ∧
    Err.valueError ≠ Err.attributeError ∧ M4F = M4F :=
  have h : fit M4F (some g4) logZero (1/2) (1/2) "gibbs" 1 =
      (M4F, Except.error Err.valueError) := rfl
  ⟨h, by decide, C10_amended_evidence_stage_failure_preserves_state
    4 1 1 M4F (some g4) logZero (1/2) (1/2) "gibbs" 1 M4F Err.valueError h (by decide)⟩

/-- Diagonal entry of `A·D·Aᵀ` as the quadratic form of the matching row. -/
lemma mul_mul_transpose_apply_self (A : Matrix (Fin q) (Fin m) ℚ)
    (D : Matrix (Fin m) (Fin m) ℚ) (i : Fin q) :
    (A * D * Aᵀ) i i = dotProduct (fun j => A i j) (D.mulVec fun j => A i j) := by
  simp only [Matrix.mul_apply, Matrix.transpose_apply, Matrix.mulVec,
    Matrix.dotProduct, Finset.sum_mul, Finset.mul_sum]
  rw [Finset.sum_comm]
  exact Finset.sum_congr rfl fun j _ => Finset.sum_congr rfl fun l _ => by ring

/-- Claim C8 (confirmed).  On a fitted instance (float hyperparameters, an
assigned weight vector), `predict` returns exactly the spec's formulas:
`mu_pred = (x - mu_X)·w_mu + mu_Y` and
`var_pred = 1/beta + x_c·D·x_cᵀ` with `D = Vᵀ·diag(1/(beta·d² + alpha))·V`,
a q x q matrix whose diagonal entries are the per-point quadratic forms
`1/beta + x_c_i·D·x_c_iᵀ`. -/
theorem C8_predict_formulas (nn mm kk qq : ℕ) (M : BayesianRegression nn mm kk)
    (x : Matrix (Fin qq) (Fin mm) ℚ) (w : Fin mm → ℚ)
    (hf : M.alphaBetaAreInt = false) (hw : M.w_mu = some w) :
    predict M x = Except.ok (M, spec_mu_pred M w x, spec_var_pred M x) ∧
    ∀ i : Fin qq, spec_var_pred M x i i =
      1 / M.beta + dotProduct (fun j => x i j - M.mu_X j)
        ((spec_D M).mulVec fun j => x i j - M.mu_X j) := by
  constructor
  · have hc : ¬(M.alphaBetaAreInt = true ∧ M.beta = 0) := by
      rw [hf]
      rintro ⟨hh, _⟩
      exact Bool.false_ne_true hh
    simp only [predict]
    rw [if_neg hc]
    simp only [hw]
    rfl
  · intro i
    simp only [spec_var_pred, Matrix.of_apply]
    rw [mul_mul_transpose_apply_self]
    rfl

/-- Claim C8 (witness): the formula theorem applied to a concrete fitted
instance and query point, with the concrete values evaluated. -/
theorem C8_predict_formulas_witness :
    M4fit.alphaBetaAreInt = false ∧ M4fit.w_mu = some ![3] ∧
    predict M4fit !![6] =
      Except.ok (M4fit, spec_mu_pred M4fit ![3] !![6], spec_var_pred M4fit !![6]) ∧
    spec_var_pred M4fit !![6] 0 0 = 1 / M4fit.beta +
      dotProduct (fun j => (!![6] : Matrix (Fin 1) (Fin 1) ℚ) 0 j - M4fit.mu_X j)
        ((spec_D M4fit).mulVec fun j =>
          (!![6] : Matrix (Fin 1) (Fin 1) ℚ) 0 j - M4fit.mu_X j) ∧
    spec_mu_pred M4fit ![3] !![6] 0 = 4 ∧
    spec_var_pred M4fit !![6] 0 0 = 203/402 :=
  have hc := C8_predict_formulas 4 1 1 1 M4fit !![6] ![3] rfl rfl
  ⟨rfl, rfl, hc.1, hc.2 0, by decide, by decide⟩

/-- For a recognized method string and a defined global `Y`, an iteration of
the evidence-approximation loop never raises. -/
lemma iterBody_ok (M : BayesianRegression n m k) (Yg : Fin n → ℚ) (logf : ℚ → ℚ)
    (method : String) (dsq : Fin k → ℚ) (a b : ℚ)
    (hm : method = "EM" ∨ method = "fixed-point") :
    ∃ evs t, iterBody M (some Yg) logf method dsq a b = (evs, Except.ok t) := by
  rcases hm with h | h <;> subst h
  · exact ⟨_, _, rfl⟩
  · exact ⟨_, _, rfl⟩

/-- Complete characterization of the loop of `_evidence_approx` when the body
never raises: the returned `log_likes` history `L` extends the accumulator by
at most `fuel` entries; no intermediate history that the loop moved past
satisfied the stopping test; and if fewer than `fuel` new entries were made,
the loop stopped because the final history satisfies the stopping test. -/
lemma loopAux_spec {mm : ℕ} (thresh : ℚ)
    (body : ℚ → ℚ → List (Ev mm) × Except Err (ℚ × ℚ × ℚ))
    (hok : ∀ a b, ∃ evs t, body a b = (evs, Except.ok t)) :
    ∀ (fuel : ℕ) (a b : ℚ) (lls : List ℚ),
      ∃ a2 b2 L, (loopAux thresh body fuel a b lls).2 = Except.ok (a2, b2, L) ∧
        lls <+: L ∧
        L.length ≤ lls.length + fuel ∧
        (∀ P, P <+: L → lls.length < P.length → P.length < L.length →
          ¬ stopCond thresh P) ∧
        (L.length < lls.length + fuel → stopCond thresh L) := by
  intro fuel
  induction fuel with
  | zero =>
    intro a b lls
    exact ⟨a, b, lls, rfl, List.prefix_refl _, Nat.le_refl _,
      fun P _ h1 h2 => absurd (Nat.lt_trans h1 h2) (Nat.lt_irrefl _),
      fun h => absurd h (Nat.lt_irrefl _)⟩
  | succ fuel ih =>
    intro a b lls
    obtain ⟨evs, t, hbody⟩ := hok a b
    obtain ⟨a2, b2, l⟩ := t
    by_cases hs : stopCond thresh (lls ++ [l])
    · refine ⟨a2, b2, lls ++ [l], ?_, List.prefix_append _ _, ?_, ?_, fun _ => hs⟩
      · simp only [loopAux]
        rw [hbody]
        simp only [if_pos hs]
      · simp only [List.length_append, List.length_cons, List.length_nil]
        omega
      · intro P _ h1 h2
        simp only [List.length_append, List.length_cons, List.length_nil] at h2
        omega
    · obtain ⟨a3, b3, L, hres, hpre, hlen, hmid, hfin⟩ := ih a2 b2 (lls ++ [l])
      have hlen2 : (lls ++ [l]).length = lls.length + 1 := by
        simp [List.length_append]
      refine ⟨a3, b3, L, ?_, ?_, ?_, ?_, ?_⟩
      · simp only [loopAux]
        rw [hbody]
        simp only [if_neg hs]
        exact hres
      · exact (List.prefix_append _ _).trans hpre
      · omega
      · intro P hp h1 h2
        by_cases hp2 : (lls ++ [l]).length < P.length
        · exact hmid P hp hp2 h2
        · have hle : P.length ≤ (lls ++ [l]).length := Nat.le_of_not_lt hp2
          have hPeq : P = lls ++ [l] :=
            (List.prefix_of_prefix_length_le hp hpre hle).eq_of_length (by omega)
          rw [hPeq]
          exact hs
      · intro hL
        exact hfin (by omega)

/-- Claim C7 (confirmed).  For a recognized method and a defined global `Y`,
the loop performs at most `max_iter` iterations (one `log_like` entry per
iteration); it never moved past an iteration `i ≥ 2` whose history satisfied
`log_like[i] - log_like[i-1] < thresh` (the directional test of source line
151 - a plain `<`, so any decrease also stops it); and if it performed fewer
than `max_iter` iterations, it stopped precisely because the final history
satisfies that test. -/
theorem C7_stopping_rule (nn mm kk : ℕ) (M : BayesianRegression nn mm kk)
    (Yg : Fin nn → ℚ) (logf : ℚ → ℚ) (a0 b0 : ℚ) (max_iter : ℕ) (method : String)
    (M2 : BayesianRegression nn mm kk) (lls : List ℚ)
    (hm : method = "EM" ∨ method = "fixed-point")
    (h : (evidence_approx M (some Yg) logf a0 b0 max_iter method).2 =
      Except.ok (M2, lls)) :
    lls.length ≤ max_iter ∧
    (∀ P, P <+: lls → P.length < lls.length → ¬ stopCond M.thresh P) ∧
    (lls.length < max_iter → stopCond M.thresh lls) := by
  obtain ⟨a2, b2, L, hres, hpre, hlen, hmid, hfin⟩ :=
    loopAux_spec M.thresh
      (fun a b => iterBody M (some Yg) logf method (fun i => M.d i ^ 2) a b)
      (fun a b => iterBody_ok M Yg logf method (fun i => M.d i ^ 2) a b hm)
      max_iter a0 b0 []
  simp only [evidence_approx] at h
  rw [hres] at h
  have hL : L = lls := congrArg (·.2) (Except.ok.inj h)
  subst hL
  refine ⟨by simpa using hlen, ?_, fun hlt => hfin (by simpa using hlt)⟩
  intro P hp hplen
  rcases Nat.eq_zero_or_pos P.length with hz | hpos
  · intro hstop
    rw [stopCond] at hstop
    omega
  · exact hmid P hp (by simpa using hpos) hplen

set_option maxRecDepth 40000 in
/-- Claim C7 (witness): the stopping-rule theorem applied to a concrete run
(`M7`, threshold `1000000`, `max_iter = 5`, method `"EM"`), which stops after
its second iteration. -/
theorem C7_stopping_rule_witness :
    (evidence_approx M7 (some g4) logZero (1/2) (1/2) 5 "EM").2 =
      Except.ok run7 ∧
    run7.2.length = 2 ∧ run7.2.length ≤ 5 ∧ stopCond M7.thresh run7.2 :=
  have h : (evidence_approx M7 (some g4) logZero (1/2) (1/2) 5 "EM").2 =
      Except.ok run7 := rfl
  have hc := C7_stopping_rule 4 1 1 M7 g4 logZero (1/2) (1/2) 5 "EM" run7.1 run7.2
    (Or.inl rfl) (by rw [h])
  ⟨h, by decide, hc.1, hc.2.2 (by decide)⟩

end SkBayes
